import Mathlib

/-
Verification development for the college-admission estimator backend
(src/backend/app.py): a shallow embedding in Lean 4 of the probability
helper compute_probability, the POST /predict handler, and the
GET /college-info handler, together with theorems settling the frozen
claims about them.

Modelling conventions:
- Python floats are modelled by ℚ (the dataset ranks and all arithmetic
  in the source are exact on such inputs; no claim depends on binary
  floating-point rounding).  A pandas NaN rank is modelled by
  Option ℚ with none standing for NaN.
- Python strings are modelled by List Char, so that strip/lower/equality
  are ordinary structural functions.
- A parsed JSON value is modelled by JVal (string, integer or null);
  a request body is a structure of optional JVal fields.
- Python round(x, 2) is modelled with Mathlib round (round half up);
  it agrees with Python's float round at every non-tie, and every
  concrete input used below is a non-tie.
-/

set_option allowUnsafeReducibility true in
attribute [semireducible] Rat.mul Rat.inv Rat.add Rat.sub

set_option synthInstance.maxSize 512

/-- Python strings are modelled as lists of characters. -/
abbrev Str := List Char

/-- Models Python str.strip(): remove whitespace from both ends. -/
def pyStrip (s : Str) : Str :=
  ((s.dropWhile Char.isWhitespace).reverse.dropWhile Char.isWhitespace).reverse

/-- Models Python str(n) for an int n: decimal representation. -/
def pyStrInt (n : Int) : Str :=
  if n < 0 then '-' :: Nat.toDigits 10 n.natAbs else Nat.toDigits 10 n.natAbs

/-- Numeric value of a nonempty all-digit character list, else none. -/
def digitsVal (l : Str) : Option Nat :=
  if l.isEmpty then none
  else if l.all Char.isDigit then
    some (l.foldl (fun acc c => 10 * acc + (c.toNat - ('0').toNat)) 0)
  else none

/-- Models Python int(s) on a string: optional surrounding whitespace,
optional sign, at least one ASCII digit; none models the ValueError raised
otherwise.  (Underscore digit grouping and non-ASCII digits, which Python
also accepts, are outside the model; no record or claim uses them.) -/
def pyParseInt (s : Str) : Option Int :=
  match pyStrip s with
  | '+' :: rest => (digitsVal rest).map Int.ofNat
  | '-' :: rest => (digitsVal rest).map (fun n => -(n : Int))
  | l => (digitsVal l).map Int.ofNat

/-- A parsed JSON value as the handler sees it: a string, an integer, or
null. -/
inductive JVal where
  | jstr (s : Str)
  | jint (n : Int)
  | jnull
  deriving DecidableEq

/-- Models Python str(v) on a JSON value. -/
def pyStr : JVal → Str
  | .jstr s => s
  | .jint n => pyStrInt n
  | .jnull => ("None").toList

/-- Models Python int(v) on a JSON value; none models the exception. -/
def pyToInt : JVal → Option Int
  | .jstr s => pyParseInt s
  | .jint n => some n
  | .jnull => none

/-- Models the attribute access v.strip(): succeeds only on a string
(none models the AttributeError raised on any other value). -/
def jStrip : JVal → Option Str
  | .jstr s => some (pyStrip s)
  | _ => none

/-- A dataset row after the load in app.py lines 8-16: the rank columns
have been coerced to numeric with unparseable cells becoming NaN. -/
structure Record where
  institute : Str
  program : Str
  quota : Str
  category : Str
  seatGender : Str
  round : Str
  openingRank : Option ℚ
  closingRank : Option ℚ
  deriving DecidableEq

/-- Embedding of compute_probability (app.py lines 19-35). -/
def compute_probability (rank : ℚ) (opening closing : Option ℚ) : ℚ :=
  match opening, closing with
  | some o, some c =>
    if o = c then (if rank ≤ o then 100 else 0)
    else if rank ≤ o then 100
    else if c ≤ rank then 0
    else max 0 (min 100 ((c - rank) / (c - o) * 100))
  | _, _ => 0

/-- The JSON body of a POST /predict request: each key either absent or
bound to a JSON value. -/
structure PredictRequest where
  user_rank : Option JVal
  quota : Option JVal
  category : Option JVal
  gender : Option JVal
  round : Option JVal
  top_n : Option JVal
  deriving DecidableEq

/-- Models the required-field test of app.py line 54:
field not in data or not str(data[field]).strip(). -/
def fieldBlank (v : Option JVal) : Bool :=
  match v with
  | none => true
  | some j => (pyStrip (pyStr j)).isEmpty

/-- Embedding of the required-fields loop (app.py lines 52-55): the first
field of the list user_rank, quota, category, gender, round that is absent
or blank, if any. -/
def checkRequired (req : PredictRequest) : Option Str :=
  if fieldBlank req.user_rank then some (("user_rank").toList)
  else if fieldBlank req.quota then some (("quota").toList)
  else if fieldBlank req.category then some (("category").toList)
  else if fieldBlank req.gender then some (("gender").toList)
  else if fieldBlank req.round then some (("round").toList)
  else none

/-- Embedding of the try block (app.py lines 58-67), in source order:
int(user_rank), the positivity check, the four strip() calls, then
int(data.get(top_n, 10)); none models the caught exception. -/
def parseInputs (req : PredictRequest) :
    Option (Int × Str × Str × Str × Str × Int) :=
  (req.user_rank.bind pyToInt).bind fun userRank =>
  if userRank ≤ 0 then none else
  (req.quota.bind jStrip).bind fun quota =>
  (req.category.bind jStrip).bind fun category =>
  (req.gender.bind jStrip).bind fun gender =>
  (req.round.bind jStrip).bind fun roundName =>
  (match req.top_n with
    | none => some (10 : Int)
    | some v => pyToInt v).bind fun topN =>
  some (userRank, quota, category, gender, roundName, topN)

/-- Embedding of the dataframe filter (app.py lines 72-77): exact equality
of the raw record fields against the parsed query values. -/
def filterRecords (df : List Record) (quota category gender roundName : Str) :
    List Record :=
  df.filter fun r =>
    r.quota == quota && r.category == category &&
    r.seatGender == gender && r.round == roundName

/-- Models Python round(x, 2). -/
def pyRound2 (q : ℚ) : ℚ := (round (q * 100) : ℚ) / 100

/-- One entry of the predictions array (app.py lines 100-106). -/
structure OutRecord where
  institute : Str
  program : Str
  openingRank : ℚ
  closingRank : ℚ
  probability : ℚ
  deriving DecidableEq

/-- Embedding of the scoring loop (app.py lines 87-106): rows with a NaN
rank are skipped, rows with probability 0 are dropped, the rest become
output entries with the probability rounded to two decimals. -/
def buildMatches (userRank : Int) (subset : List Record) : List OutRecord :=
  subset.filterMap fun r =>
    match r.openingRank, r.closingRank with
    | some op, some cl =>
      if 0 < compute_probability (userRank : ℚ) (some op) (some cl) then
        some { institute := pyStrip r.institute, program := pyStrip r.program,
               openingRank := op, closingRank := cl,
               probability :=
                 pyRound2 (compute_probability (userRank : ℚ)
                   (some op) (some cl)) }
      else none
    | _, _ => none

/-- The sort key order of app.py line 109: ascending lexicographic order
on the pair (rounded probability, closing rank). -/
def scoreLE (a b : OutRecord) : Prop :=
  a.probability < b.probability ∨
    (a.probability = b.probability ∧ a.closingRank ≤ b.closingRank)

instance : DecidableRel scoreLE := fun a b =>
  inferInstanceAs (Decidable (_ ∨ _ ∧ _))

instance : IsTotal OutRecord scoreLE :=
  ⟨fun a b => by
    unfold scoreLE
    rcases lt_trichotomy a.probability b.probability with h | h | h
    · exact Or.inl (Or.inl h)
    · rcases le_total a.closingRank b.closingRank with hc | hc
      · exact Or.inl (Or.inr ⟨h, hc⟩)
      · exact Or.inr (Or.inr ⟨h.symm, hc⟩)
    · exact Or.inr (Or.inl h)⟩

instance : IsTrans OutRecord scoreLE :=
  ⟨fun a b c hab hbc => by
    unfold scoreLE at *
    rcases hab with h1 | ⟨h1, h1c⟩ <;> rcases hbc with h2 | ⟨h2, h2c⟩
    · exact Or.inl (h1.trans h2)
    · exact Or.inl (h2 ▸ h1)
    · exact Or.inl (h1 ▸ h2)
    · exact Or.inr ⟨h1.trans h2, h1c.trans h2c⟩⟩

/-- Models the Python slice xs[:n] for an int n, including the negative
case, where Python keeps all but the last |n| elements. -/
def pyTake {α : Type} (n : Int) (xs : List α) : List α :=
  if 0 ≤ n then xs.take n.toNat else xs.take ((xs.length : Int) + n).toNat

/-- Models pandas Series.max(): the maximum of the non-NaN values, none
when there are none. -/
def seriesMax (l : List (Option ℚ)) : Option ℚ := (l.filterMap id).max?

/-- Models pandas Series.min(): the minimum of the non-NaN values, none
when there are none. -/
def seriesMin (l : List (Option ℚ)) : Option ℚ := (l.filterMap id).min?

/-- The two 400 error payloads of predict (app.py lines 55 and 69). -/
inductive PredictError where
  | missingField (field : Str)
  | invalidInput
  deriving DecidableEq

/-- The two explanatory messages of predict: the empty-filter message of
line 83 and the outside-range message of lines 120-121, which quotes the
user rank, the maximum opening rank and the minimum closing rank of the
filtered subset. -/
inductive PredictMessage where
  | noMatch
  | outsideRange (userRank : Int) (maxOpen minClose : Option ℚ)
  deriving DecidableEq

/-- The JSON response of predict: a 400 error, or a predictions array with
an optional explanatory message. -/
inductive PredictResult where
  | error (e : PredictError)
  | ok (predictions : List OutRecord) (message : Option PredictMessage)
  deriving DecidableEq

/-- Embedding of the predict handler (app.py lines 44-124). -/
def predict (df : List Record) (req : PredictRequest) : PredictResult :=
  match checkRequired req with
  | some f => .error (.missingField f)
  | none =>
    match parseInputs req with
    | none => .error .invalidInput
    | some (userRank, quota, category, gender, roundName, topN) =>
      if (filterRecords df quota category gender roundName).isEmpty then
        .ok [] (some .noMatch)
      else if (pyTake topN (List.insertionSort scoreLE
          (buildMatches userRank
            (filterRecords df quota category gender roundName)))).isEmpty then
        .ok [] (some (.outsideRange userRank
          (seriesMax ((filterRecords df quota category gender
            roundName).map Record.openingRank))
          (seriesMin ((filterRecords df quota category gender
            roundName).map Record.closingRank))))
      else
        .ok (pyTake topN (List.insertionSort scoreLE
          (buildMatches userRank
            (filterRecords df quota category gender roundName)))) none

/-- The predictions array of a predict response (empty for an error). -/
def resultPredictions : PredictResult → List OutRecord
  | .error _ => []
  | .ok l _ => l

/-- A rank cell of a college-info result: a number, or the explicit
string N/A used for NaN (app.py lines 152-153). -/
inductive RankVal where
  | num (q : ℚ)
  | na
  deriving DecidableEq

/-- One entry of the college-info results array (app.py lines 147-154). -/
structure InfoRecord where
  institute : Str
  program : Str
  quota : Str
  category : Str
  openingRank : RankVal
  closingRank : RankVal
  deriving DecidableEq

/-- Summary message of a college-info response (app.py line 159). -/
inductive InfoMessage where
  | found (n : Nat)
  | noneFound
  deriving DecidableEq

/-- The JSON response of college-info: a 400 error when the name parameter
is blank, or a count, results array, and summary message. -/
inductive InfoResult where
  | error
  | ok (count : Nat) (results : List InfoRecord) (message : InfoMessage)
  deriving DecidableEq

/-- The special characters of Python regular expressions: dot, caret,
dollar, star, plus, question mark, the two bracket pairs, the two brace
characters (written by code point), vertical bar and backslash. -/
def pyRegexMeta : Str :=
  ['.', '^', '$', '*', '+', '?', '[', ']', '(', ')', '|', '\\',
   Char.ofNat 123, Char.ofNat 125]

/-- The pattern domain on which this file models pandas str.contains: every
character is either the dot or no regex metacharacter at all.  Such a
pattern is a well-formed regular expression whose only special behavior is
the dot, so on this domain re.search neither applies further regex
semantics nor raises re.error. -/
def simplePattern (pat : Str) : Bool :=
  pat.all fun c => c == ('.') || !(pyRegexMeta.contains c)

/-- Patterns holding no regex metacharacter whatsoever: on these, regex
search degenerates to plain substring search. -/
def literalPattern (pat : Str) : Bool :=
  pat.all fun c => !(pyRegexMeta.contains c)

/-- Character match for one position of a simple pattern: the dot matches
any character, any other character matches itself case-insensitively
(re.IGNORECASE). -/
def charMatches (p c : Char) : Bool := p == '.' || p.toLower == c.toLower

/-- Regex match of a simple pattern against a prefix of the text. -/
def reMatchAt : Str → Str → Bool
  | [], _ => true
  | _ :: _, [] => false
  | p :: ps, c :: cs => charMatches p c && reMatchAt ps cs

/-- Partial model of pandas Series.str.contains(pat, case=False, na=False),
i.e. Python re.search with IGNORECASE: true when the pattern matches
starting at some position of the text.  It is faithful exactly on simple
patterns (simplePattern); a pattern holding any other metacharacter, on
which re.search applies genuine regex semantics or raises re.error, is
outside the model, and every theorem about college_info restricts its
patterns accordingly. -/
def reSearch (pat s : Str) : Bool := s.tails.any fun t => reMatchAt pat t

/-- The result row built by college-info (app.py lines 147-154): display
fields are stripped and a NaN rank becomes the N/A marker. -/
def mkInfoRecord (r : Record) : InfoRecord :=
  { institute := pyStrip r.institute, program := pyStrip r.program,
    quota := pyStrip r.quota, category := pyStrip r.category,
    openingRank := match r.openingRank with | some q => .num q | none => .na,
    closingRank := match r.closingRank with | some q => .num q | none => .na }

/-- The mask-and-build step of college-info (app.py lines 136-154): rows
whose institute matches the name pattern and, when the program pattern is
non-blank, whose program matches it too, rendered as result rows. -/
def infoMatches (df : List Record) (name program : Str) : List InfoRecord :=
  (df.filter fun r =>
    reSearch name r.institute &&
      (program.isEmpty || reSearch program r.program)).map mkInfoRecord

/-- Embedding of the college-info handler (app.py lines 127-163) on the
modelled pattern domain.  On simple patterns (simplePattern) the regular
expressions are well formed, so the except branch answering HTTP 500 on
re.error (app.py lines 162-163) cannot trigger and is not represented;
requests whose trimmed patterns fall outside that domain are outside the
model, and the theorems below carry the simplePattern restriction. -/
def college_info (df : List Record) (nameParam programParam : Str) :
    InfoResult :=
  if (pyStrip nameParam).isEmpty then .error
  else
    .ok (infoMatches df (pyStrip nameParam) (pyStrip programParam)).length
      (infoMatches df (pyStrip nameParam) (pyStrip programParam))
      (if (infoMatches df (pyStrip nameParam) (pyStrip programParam)).isEmpty
        then .noneFound
        else .found
          (infoMatches df (pyStrip nameParam) (pyStrip programParam)).length)

/-- Following the spec's words, for comparison with the code's regex
matching: case-insensitive substring containment of the pattern in the
text. -/
def specContainsCI (pat s : Str) : Bool :=
  (s.map Char.toLower).tails.any fun t => (pat.map Char.toLower).isPrefixOf t

/-! Section: Helper lemmas -/

theorem compute_probability_nonneg (r : ℚ) (o c : Option ℚ) :
    0 ≤ compute_probability r o c := by
  match o, c with
  | some o, some c =>
    simp only [compute_probability]
    split_ifs <;> first | norm_num | exact le_max_left _ _
  | none, none => simp [compute_probability]
  | none, some _ => simp [compute_probability]
  | some _, none => simp [compute_probability]

theorem compute_probability_le_100 (r : ℚ) (o c : Option ℚ) :
    compute_probability r o c ≤ 100 := by
  match o, c with
  | some o, some c =>
    simp only [compute_probability]
    split_ifs <;>
      first
      | norm_num
      | exact max_le (by norm_num) (min_le_left _ _)
  | none, none => simp [compute_probability]
  | none, some _ => simp [compute_probability]
  | some _, none => simp [compute_probability]

theorem round_le_round {x y : ℚ} (h : x ≤ y) : round x ≤ round y := by
  rw [round_eq, round_eq]
  exact Int.floor_mono (by linarith)

theorem pyRound2_bounds {p : ℚ} (h0 : 0 ≤ p) (h1 : p ≤ 100) :
    0 ≤ pyRound2 p ∧ pyRound2 p ≤ 100 := by
  constructor
  · have h2 : round (0 : ℚ) ≤ round (p * 100) := round_le_round (by nlinarith)
    rw [round_zero] at h2
    have h3 : (0 : ℚ) ≤ (round (p * 100) : ℚ) := by exact_mod_cast h2
    unfold pyRound2
    linarith
  · have h2 : round (p * 100) ≤ round ((10000 : ℚ)) :=
      round_le_round (by nlinarith)
    rw [show ((10000 : ℚ)) = ((10000 : ℤ) : ℚ) by norm_num,
      round_intCast] at h2
    have h3 : ((round (p * 100)) : ℚ) ≤ 10000 := by exact_mod_cast h2
    unfold pyRound2
    linarith

/-! Section: C1 -/

/-- C1: for every rank r greater than 0 and bounds o, c, compute_probability
returns 0 when either bound is absent; when o equals c it returns 100 for
r at most o and 0 otherwise; past those guards it returns 100 when r is at
most o, 0 when r is at least c, and otherwise 100 times (c minus r) over
(c minus o) clamped to the interval from 0 to 100. -/
theorem C1_compute_probability_spec (r : ℚ) (hr : 0 < r) (o c : ℚ) :
    compute_probability r none none = 0 ∧
    compute_probability r none (some c) = 0 ∧
    compute_probability r (some o) none = 0 ∧
    (o = c → compute_probability r (some o) (some c) =
      (if r ≤ o then 100 else 0)) ∧
    (o ≠ c → r ≤ o → compute_probability r (some o) (some c) = 100) ∧
    (o ≠ c → ¬ r ≤ o → c ≤ r → compute_probability r (some o) (some c) = 0) ∧
    (o ≠ c → ¬ r ≤ o → ¬ c ≤ r →
      compute_probability r (some o) (some c) =
        max 0 (min 100 (100 * (c - r) / (c - o)))) := by
  refine ⟨rfl, rfl, rfl, ?_, ?_, ?_, ?_⟩
  · intro h
    subst h
    simp [compute_probability]
  · intro hne hle
    simp [compute_probability, hne, hle]
  · intro hne hno hcr
    simp [compute_probability, hne, hno, hcr]
  · intro hne hno hnc
    simp only [compute_probability, if_neg hne, if_neg hno, if_neg hnc]
    have h : (c - r) / (c - o) * 100 = 100 * (c - r) / (c - o) := by ring
    rw [h]

/-- Witness for C1 at rank 300 with bounds 100 and 500: the interpolation
clause applies, matching the spec's worked example. -/
theorem C1_witness :
    compute_probability 300 (some 100) (some 500) =
      max 0 (min 100 (100 * ((500 : ℚ) - 300) / (500 - 100))) :=
  (C1_compute_probability_spec 300 (by norm_num) 100 500).2.2.2.2.2.2
    (by norm_num) (by norm_num) (by norm_num)

/-! Section: C8 -/

/-- C8: when both bounds are present and the opening rank is strictly less
than the closing rank, compute_probability is 100 at the opening rank, 0
at the closing rank, and monotonically non-increasing in the rank over the
interval between them. -/
theorem C8_boundary_and_monotone (o c : ℚ) (h : o < c) :
    compute_probability o (some o) (some c) = 100 ∧
    compute_probability c (some o) (some c) = 0 ∧
    ∀ r1 r2 : ℚ, o ≤ r1 → r1 ≤ r2 → r2 ≤ c →
      compute_probability r2 (some o) (some c) ≤
        compute_probability r1 (some o) (some c) := by
  have hne : o ≠ c := ne_of_lt h
  refine ⟨by simp [compute_probability, hne], ?_, ?_⟩
  · have hno : ¬ c ≤ o := not_le_of_lt h
    simp [compute_probability, hne, hno]
  · intro r1 r2 ho1 h12 h2c
    simp only [compute_probability, if_neg hne]
    split_ifs <;>
      first
      | linarith
      | exact le_max_left _ _
      | exact max_le (by norm_num) (min_le_left _ _)
      | (refine max_le_max le_rfl (min_le_min le_rfl ?_)
         gcongr <;> linarith)

/-- Witness for C8 with opening 100 and closing 500: the boundary value at
the opening rank is 100, and monotonicity applies at ranks 200 and 300. -/
theorem C8_witness :
    compute_probability 100 (some 100) (some 500) = 100 ∧
    compute_probability 300 (some 100) (some 500) ≤
      compute_probability 200 (some 100) (some 500) :=
  ⟨(C8_boundary_and_monotone 100 500 (by norm_num)).1,
   (C8_boundary_and_monotone 100 500 (by norm_num)).2.2 200 300
     (by norm_num) (by norm_num) (by norm_num)⟩

/-! Section: Shape of a successful predict call -/

theorem predict_ok_shape {df : List Record} {req : PredictRequest}
    {preds : List OutRecord} {msg : Option PredictMessage}
    (h : predict df req = .ok preds msg) :
    preds = [] ∨ ∃ ur q c g rn tn,
      checkRequired req = none ∧
      parseInputs req = some (ur, q, c, g, rn, tn) ∧
      preds = pyTake tn (List.insertionSort scoreLE
        (buildMatches ur (filterRecords df q c g rn))) := by
  unfold predict at h
  cases hc : checkRequired req with
  | some f => rw [hc] at h; exact absurd h (by simp)
  | none =>
    rw [hc] at h
    cases hp : parseInputs req with
    | none => rw [hp] at h; exact absurd h (by simp)
    | some tup =>
      obtain ⟨ur, q, c, g, rn, tn⟩ := tup
      rw [hp] at h
      simp only at h
      by_cases hs : (filterRecords df q c g rn).isEmpty
      · rw [if_pos hs] at h
        cases h
        exact Or.inl rfl
      · rw [if_neg hs] at h
        by_cases ht : (pyTake tn (List.insertionSort scoreLE
            (buildMatches ur (filterRecords df q c g rn)))).isEmpty
        · rw [if_pos ht] at h
          cases h
          exact Or.inl rfl
        · rw [if_neg ht] at h
          cases h
          exact Or.inr ⟨ur, q, c, g, rn, tn, rfl, rfl, rfl⟩

theorem pyTake_sublist {α : Type} (n : Int) (xs : List α) :
    (pyTake n xs).Sublist xs := by
  unfold pyTake
  split_ifs <;> exact List.take_sublist _ _

theorem pyTake_nil {α : Type} (n : Int) : pyTake n ([] : List α) = [] := by
  unfold pyTake
  split_ifs <;> simp

theorem parseInputs_parts {req : PredictRequest} {ur : Int} {q c g rn : Str}
    {tn : Int} (hp : parseInputs req = some (ur, q, c, g, rn, tn)) :
    req.user_rank.bind pyToInt = some ur ∧ 0 < ur ∧
    req.quota.bind jStrip = some q ∧
    req.category.bind jStrip = some c ∧
    req.gender.bind jStrip = some g ∧
    req.round.bind jStrip = some rn ∧
    (match req.top_n with
      | none => some (10 : Int)
      | some v => pyToInt v) = some tn := by
  unfold parseInputs at hp
  cases h1 : req.user_rank.bind pyToInt with
  | none => rw [h1] at hp; exact absurd hp (by simp)
  | some ur' =>
    rw [h1] at hp
    simp only [Option.some_bind] at hp
    by_cases h2 : ur' ≤ 0
    · rw [if_pos h2] at hp; exact absurd hp (by simp)
    · rw [if_neg h2] at hp
      cases h3 : req.quota.bind jStrip with
      | none => rw [h3] at hp; exact absurd hp (by simp)
      | some q' =>
        rw [h3] at hp
        simp only [Option.some_bind] at hp
        cases h4 : req.category.bind jStrip with
        | none => rw [h4] at hp; exact absurd hp (by simp)
        | some c' =>
          rw [h4] at hp
          simp only [Option.some_bind] at hp
          cases h5 : req.gender.bind jStrip with
          | none => rw [h5] at hp; exact absurd hp (by simp)
          | some g' =>
            rw [h5] at hp
            simp only [Option.some_bind] at hp
            cases h6 : req.round.bind jStrip with
            | none => rw [h6] at hp; exact absurd hp (by simp)
            | some rn' =>
              rw [h6] at hp
              simp only [Option.some_bind] at hp
              cases h7 : (match req.top_n with
                | none => some (10 : Int)
                | some v => pyToInt v) with
              | none => rw [h7] at hp; exact absurd hp (by simp)
              | some tn' =>
                rw [h7] at hp
                simp only [Option.some_bind, Option.some.injEq,
                  Prod.mk.injEq] at hp
                obtain ⟨e1, e2, e3, e4, e5, e6⟩ := hp
                subst e1; subst e2; subst e3; subst e4; subst e5; subst e6
                exact ⟨rfl, lt_of_not_le h2, rfl, rfl, rfl, rfl, rfl⟩

theorem mem_buildMatches {ur : Int} {subset : List Record} {out : OutRecord}
    (h : out ∈ buildMatches ur subset) :
    ∃ r ∈ subset,
      r.openingRank = some out.openingRank ∧
      r.closingRank = some out.closingRank ∧
      0 < compute_probability (ur : ℚ)
        (some out.openingRank) (some out.closingRank) ∧
      out.probability = pyRound2 (compute_probability (ur : ℚ)
        (some out.openingRank) (some out.closingRank)) ∧
      out.institute = pyStrip r.institute ∧
      out.program = pyStrip r.program := by
  unfold buildMatches at h
  rw [List.mem_filterMap] at h
  obtain ⟨r, hr, he⟩ := h
  cases hop : r.openingRank with
  | none => rw [hop] at he; simp at he
  | some op =>
    cases hcl : r.closingRank with
    | none => rw [hop, hcl] at he; simp at he
    | some cl =>
      rw [hop, hcl] at he
      simp only at he
      by_cases hpos : 0 < compute_probability (ur : ℚ) (some op) (some cl)
      · rw [if_pos hpos] at he
        have he2 := (Option.some.inj he).symm
        subst he2
        exact ⟨r, hr, hop, hcl, hpos, rfl, rfl, rfl⟩
      · rw [if_neg hpos] at he
        simp at he

/-! Section: Concrete data used by witnesses and counterexamples -/

/-- The spec's worked example row: opening rank 100, closing rank 500. -/
def exRecord : Record :=
  { institute := ("XYZ").toList, program := ("CSE").toList,
    quota := ("HS").toList, category := ("GEN").toList,
    seatGender := ("Gender-Neutral").toList, round := ("1").toList,
    openingRank := some 100, closingRank := some 500 }

/-- The spec's worked example query: rank 300 with matching filters. -/
def exRequest : PredictRequest :=
  { user_rank := some (.jint 300), quota := some (.jstr (("HS").toList)),
    category := some (.jstr (("GEN").toList)),
    gender := some (.jstr (("Gender-Neutral").toList)),
    round := some (.jstr (("1").toList)), top_n := some (.jint 5) }

/-- The single prediction produced for the worked example: probability
100 times 200 over 400, that is 50. -/
def exOut : OutRecord :=
  { institute := ("XYZ").toList, program := ("CSE").toList,
    openingRank := 100, closingRank := 500, probability := 50 }

theorem predict_example : predict [exRecord] exRequest = .ok [exOut] none := by
  decide

/-! Section: C3 -/

/-- C3: the predictions of every successful predict call are pairwise
ordered: any earlier entry has a strictly smaller probability, or an equal
probability and a closing rank no larger, than any later entry. -/
theorem C3_sorted (df : List Record) (req : PredictRequest)
    (preds : List OutRecord) (msg : Option PredictMessage)
    (h : predict df req = .ok preds msg) :
    preds.Pairwise (fun a b =>
      a.probability < b.probability ∨
        (a.probability = b.probability ∧ a.closingRank ≤ b.closingRank)) := by
  rcases predict_ok_shape h with h0 | ⟨ur, q, c, g, rn, tn, _, _, hpr⟩
  · subst h0
    exact List.Pairwise.nil
  · subst hpr
    exact List.Pairwise.sublist (pyTake_sublist tn _)
      (List.sorted_insertionSort scoreLE _)

/-- Witness for C3: the worked example's successful call yields a sorted
singleton. -/
theorem C3_witness :
    ([exOut] : List OutRecord).Pairwise (fun a b =>
      a.probability < b.probability ∨
        (a.probability = b.probability ∧ a.closingRank ≤ b.closingRank)) :=
  C3_sorted [exRecord] exRequest [exOut] none predict_example

/-! Section: C4 -/

/-- Two rows that both score a positive probability at rank 5. -/
def cexDf4 : List Record :=
  [{ institute := ("A").toList, program := ("P").toList,
     quota := ("q").toList, category := ("c").toList,
     seatGender := ("g").toList, round := ("1").toList,
     openingRank := some 1, closingRank := some 10 },
   { institute := ("B").toList, program := ("Q").toList,
     quota := ("q").toList, category := ("c").toList,
     seatGender := ("g").toList, round := ("1").toList,
     openingRank := some 1, closingRank := some 20 }]

/-- A valid query with the negative value minus one for top_n. -/
def cexReq4 : PredictRequest :=
  { user_rank := some (.jint 5), quota := some (.jstr (("q").toList)),
    category := some (.jstr (("c").toList)),
    gender := some (.jstr (("g").toList)),
    round := some (.jstr (("1").toList)), top_n := some (.jint (-1)) }

/-- Counterexample to C4: with topN equal to minus one, which is at most
zero, the call still returns a non-empty sequence, because the Python
slice with a negative bound keeps all but the last element. -/
theorem C4_counterexample :
    parseInputs cexReq4 = some (5, ("q").toList, ("c").toList,
      ("g").toList, ("1").toList, -1) ∧
    resultPredictions (predict cexDf4 cexReq4) ≠ [] := by
  decide

/-- C4 amended: the returned sequence has at most topN entries whenever
topN is non-negative, topN defaults to 10 when the field is absent, and
topN equal to zero yields an empty sequence.  (A negative topN instead
slices off its absolute value from the end, as the counterexample shows.) -/
theorem C4_amended (df : List Record) (req : PredictRequest)
    (preds : List OutRecord) (msg : Option PredictMessage) (ur : Int)
    (q c g rn : Str) (tn : Int)
    (hp : parseInputs req = some (ur, q, c, g, rn, tn))
    (h : predict df req = .ok preds msg) :
    (req.top_n = none → tn = 10) ∧
    (0 ≤ tn → preds.length ≤ tn.toNat) ∧
    (tn = 0 → preds = []) := by
  have htop := (parseInputs_parts hp).2.2.2.2.2.2
  refine ⟨?_, ?_, ?_⟩
  · intro hn
    rw [hn] at htop
    exact (Option.some.inj htop).symm
  · intro h0
    rcases predict_ok_shape h with h1 | ⟨ur', q', c', g', rn', tn', _, hp', hpr⟩
    · subst h1
      simp
    · have he := Option.some.inj (hp.symm.trans hp')
      simp only [Prod.mk.injEq] at he
      obtain ⟨rfl, rfl, rfl, rfl, rfl, rfl⟩ := he
      subst hpr
      unfold pyTake
      rw [if_pos h0]
      rw [List.length_take]
      exact min_le_left _ _
  · intro h0
    subst h0
    rcases predict_ok_shape h with h1 | ⟨ur', q', c', g', rn', tn', _, hp', hpr⟩
    · exact h1
    · have he := Option.some.inj (hp.symm.trans hp')
      simp only [Prod.mk.injEq] at he
      obtain ⟨rfl, rfl, rfl, rfl, rfl, rfl⟩ := he
      subst hpr
      unfold pyTake
      rw [if_pos le_rfl]
      simp

/-- Witness for C4 amended at the worked example: top_n is 5, so at most
five entries come back. -/
theorem C4_witness :
    (exRequest.top_n = none → (5 : Int) = 10) ∧
    ((0 : Int) ≤ 5 → ([exOut] : List OutRecord).length ≤ (5 : Int).toNat) ∧
    ((5 : Int) = 0 → ([exOut] : List OutRecord) = []) :=
  C4_amended [exRecord] exRequest [exOut] none 300 (("HS").toList)
    (("GEN").toList) (("Gender-Neutral").toList) (("1").toList) 5
    (by decide) predict_example

/-! Section: C2 -/

/-- A row whose interpolated probability at rank 100000 is one tenth of a
percent: positive, but rounding to two decimals gives zero. -/
def cexDf2 : List Record :=
  [{ institute := ("I").toList, program := ("P").toList,
     quota := ("q").toList, category := ("c").toList,
     seatGender := ("g").toList, round := ("1").toList,
     openingRank := some 1, closingRank := some 100001 }]

/-- A valid query at rank 100000 against cexDf2. -/
def cexReq2 : PredictRequest :=
  { user_rank := some (.jint 100000), quota := some (.jstr (("q").toList)),
    category := some (.jstr (("c").toList)),
    gender := some (.jstr (("g").toList)),
    round := some (.jstr (("1").toList)), top_n := none }

/-- Counterexample to C2: the returned record's probability, rounded to
two decimals, is exactly 0, which is outside the claimed interval from 0
exclusive to 100: the drop-zero test is applied to the unrounded value. -/
theorem C2_counterexample :
    (resultPredictions (predict cexDf2 cexReq2)).map OutRecord.probability
      = [0] := by
  decide

/-- C2 amended: every returned record comes from a filtered row with both
ranks present, its probability field is compute_probability at the
candidate rank rounded to two decimals, the unrounded probability is
strictly positive and at most 100, and the rounded probability lies in
the closed interval from 0 to 100 (it can round down to exactly 0). -/
theorem C2_amended (df : List Record) (req : PredictRequest)
    (preds : List OutRecord) (msg : Option PredictMessage) (ur : Int)
    (q c g rn : Str) (tn : Int)
    (hp : parseInputs req = some (ur, q, c, g, rn, tn))
    (h : predict df req = .ok preds msg) :
    ∀ out ∈ preds, ∃ r ∈ filterRecords df q c g rn,
      r.openingRank = some out.openingRank ∧
      r.closingRank = some out.closingRank ∧
      0 < compute_probability (ur : ℚ)
        (some out.openingRank) (some out.closingRank) ∧
      compute_probability (ur : ℚ)
        (some out.openingRank) (some out.closingRank) ≤ 100 ∧
      out.probability = pyRound2 (compute_probability (ur : ℚ)
        (some out.openingRank) (some out.closingRank)) ∧
      0 ≤ out.probability ∧ out.probability ≤ 100 := by
  intro out hout
  rcases predict_ok_shape h with h1 | ⟨ur', q', c', g', rn', tn', _, hp', hpr⟩
  · subst h1
    exact absurd hout (by simp)
  · have he := Option.some.inj (hp.symm.trans hp')
    simp only [Prod.mk.injEq] at he
    obtain ⟨rfl, rfl, rfl, rfl, rfl, rfl⟩ := he
    subst hpr
    have hout2 : out ∈ List.insertionSort scoreLE
        (buildMatches ur (filterRecords df q c g rn)) :=
      (pyTake_sublist tn _).subset hout
    rw [List.mem_insertionSort] at hout2
    obtain ⟨r, hr, hop, hcl, hpos, hprob, _, _⟩ := mem_buildMatches hout2
    have hle := compute_probability_le_100 (ur : ℚ)
      (some out.openingRank) (some out.closingRank)
    have hbounds := pyRound2_bounds (le_of_lt hpos) hle
    exact ⟨r, hr, hop, hcl, hpos, hle, hprob,
      hprob ▸ hbounds.1, hprob ▸ hbounds.2⟩

/-- Witness for C2 amended: the worked example's single prediction comes
from its row with probability 50. -/
theorem C2_witness :
    ∃ r ∈ filterRecords [exRecord] (("HS").toList) (("GEN").toList)
        (("Gender-Neutral").toList) (("1").toList),
      r.openingRank = some exOut.openingRank ∧
      r.closingRank = some exOut.closingRank ∧
      0 < compute_probability ((300 : Int) : ℚ)
        (some exOut.openingRank) (some exOut.closingRank) ∧
      compute_probability ((300 : Int) : ℚ)
        (some exOut.openingRank) (some exOut.closingRank) ≤ 100 ∧
      exOut.probability = pyRound2 (compute_probability ((300 : Int) : ℚ)
        (some exOut.openingRank) (some exOut.closingRank)) ∧
      0 ≤ exOut.probability ∧ exOut.probability ≤ 100 :=
  C2_amended [exRecord] exRequest [exOut] none 300 (("HS").toList)
    (("GEN").toList) (("Gender-Neutral").toList) (("1").toList) 5
    (by decide) predict_example exOut (by simp)

/-! Section: C6 -/

/-- C6: a valid predict call whose filter matches nothing returns the
empty sequence with the no-colleges message, and one whose matches are all
skipped or dropped returns the empty sequence with the outside-range
message quoting the filtered set's extreme opening and closing ranks;
neither path is an error. -/
theorem C6_empty_results (df : List Record) (req : PredictRequest)
    (ur : Int) (q c g rn : Str) (tn : Int)
    (hc : checkRequired req = none)
    (hp : parseInputs req = some (ur, q, c, g, rn, tn)) :
    (filterRecords df q c g rn = [] →
      predict df req = .ok [] (some .noMatch)) ∧
    (filterRecords df q c g rn ≠ [] →
      buildMatches ur (filterRecords df q c g rn) = [] →
      predict df req = .ok [] (some (.outsideRange ur
        (seriesMax ((filterRecords df q c g rn).map Record.openingRank))
        (seriesMin ((filterRecords df q c g rn).map Record.closingRank))))) := by
  constructor
  · intro he
    unfold predict
    rw [hc, hp]
    simp only
    rw [if_pos (by rw [he]; rfl)]
  · intro hne hbm
    unfold predict
    rw [hc, hp]
    simp only
    have hne2 : (filterRecords df q c g rn).isEmpty = false := by
      cases hfe : filterRecords df q c g rn with
      | nil => exact absurd hfe hne
      | cons a l => rfl
    rw [if_neg (by rw [hne2]; simp)]
    rw [if_pos (by rw [hbm]; simp [pyTake_nil])]

/-- Witness for C6: the worked example query against an empty dataset
returns the empty sequence with the no-colleges message. -/
theorem C6_witness :
    predict ([] : List Record) exRequest = .ok [] (some .noMatch) :=
  (C6_empty_results [] exRequest 300 (("HS").toList) (("GEN").toList)
    (("Gender-Neutral").toList) (("1").toList) 5
    (by decide) (by decide)).1 rfl

/-! Section: C7 -/

/-- A row whose quota carries a leading space, so it trims to HS but does
not equal HS. -/
def cexRec7 : Record :=
  { institute := ("A").toList, program := ("P").toList,
    quota := (" HS").toList, category := ("GEN").toList,
    seatGender := ("G").toList, round := ("1").toList,
    openingRank := some 1, closingRank := some 10 }

/-- A valid query whose trimmed criteria coincide with the trimmed fields
of cexRec7. -/
def cexReq7 : PredictRequest :=
  { user_rank := some (.jint 5), quota := some (.jstr (("HS").toList)),
    category := some (.jstr (("GEN").toList)),
    gender := some (.jstr (("G").toList)),
    round := some (.jstr (("1").toList)), top_n := none }

/-- Counterexample to C7: every filter field of cexRec7 equals the
corresponding query criterion after trimming both sides, yet the record
is not selected, because the code compares the raw record value: the
record side is never trimmed. -/
theorem C7_counterexample :
    pyStrip cexRec7.quota = pyStrip (("HS").toList) ∧
    pyStrip cexRec7.category = pyStrip (("GEN").toList) ∧
    pyStrip cexRec7.seatGender = pyStrip (("G").toList) ∧
    pyStrip cexRec7.round = pyStrip (("1").toList) ∧
    parseInputs cexReq7 = some (5, ("HS").toList, ("GEN").toList,
      ("G").toList, ("1").toList, 10) ∧
    filterRecords [cexRec7] (("HS").toList) (("GEN").toList)
      (("G").toList) (("1").toList) = [] ∧
    predict [cexRec7] cexReq7 = .ok [] (some .noMatch) := by
  decide

/-- C7 amended: a record is selected for scoring iff its raw quota,
category, seatGender and round fields are exactly equal, case-sensitively
and without trimming the record side, to the corresponding query criteria;
only the query values are trimmed, during input parsing. -/
theorem C7_amended (df : List Record) (req : PredictRequest)
    (ur : Int) (q c g rn : Str) (tn : Int)
    (hp : parseInputs req = some (ur, q, c, g, rn, tn)) (r : Record) :
    (r ∈ filterRecords df q c g rn ↔
      r ∈ df ∧ r.quota = q ∧ r.category = c ∧
        r.seatGender = g ∧ r.round = rn) ∧
    (∀ j, req.quota = some j → jStrip j = some q) ∧
    (∀ j, req.category = some j → jStrip j = some c) ∧
    (∀ j, req.gender = some j → jStrip j = some g) ∧
    (∀ j, req.round = some j → jStrip j = some rn) := by
  have hparts := parseInputs_parts hp
  refine ⟨?_, ?_, ?_, ?_, ?_⟩
  · unfold filterRecords
    rw [List.mem_filter]
    simp [and_assoc]
  · intro j hj
    have h2 := hparts.2.2.1
    rw [hj] at h2
    exact h2
  · intro j hj
    have h2 := hparts.2.2.2.1
    rw [hj] at h2
    exact h2
  · intro j hj
    have h2 := hparts.2.2.2.2.1
    rw [hj] at h2
    exact h2
  · intro j hj
    have h2 := hparts.2.2.2.2.2.1
    rw [hj] at h2
    exact h2

/-- Witness for C7 amended at the worked example: the example record is
selected exactly because its raw fields equal the trimmed criteria. -/
theorem C7_witness :
    ((exRecord ∈ filterRecords [exRecord] (("HS").toList) (("GEN").toList)
        (("Gender-Neutral").toList) (("1").toList)) ↔
      (exRecord ∈ [exRecord] ∧ exRecord.quota = ("HS").toList ∧
        exRecord.category = ("GEN").toList ∧
        exRecord.seatGender = ("Gender-Neutral").toList ∧
        exRecord.round = ("1").toList)) ∧
    (∀ j, exRequest.quota = some j → jStrip j = some (("HS").toList)) ∧
    (∀ j, exRequest.category = some j → jStrip j = some (("GEN").toList)) ∧
    (∀ j, exRequest.gender = some j →
      jStrip j = some (("Gender-Neutral").toList)) ∧
    (∀ j, exRequest.round = some j → jStrip j = some (("1").toList)) :=
  C7_amended [exRecord] exRequest 300 (("HS").toList) (("GEN").toList)
    (("Gender-Neutral").toList) (("1").toList) 5 (by decide) exRecord

/-! Section: C10 -/

/-- C10: whenever top_n is present but int conversion fails on it, predict
returns an error (HTTP 400) rather than falling back to the default. -/
theorem C10_unconvertible_top_n (df : List Record) (req : PredictRequest)
    (j : JVal) (hj : req.top_n = some j) (hbad : pyToInt j = none) :
    ∃ e, predict df req = .error e := by
  cases hc : checkRequired req with
  | some f =>
    refine ⟨.missingField f, ?_⟩
    unfold predict
    rw [hc]
  | none =>
    cases hp : parseInputs req with
    | none =>
      refine ⟨.invalidInput, ?_⟩
      unfold predict
      rw [hc, hp]
    | some t =>
      obtain ⟨ur, q2, c2, g2, rn2, tn2⟩ := t
      have htop := (parseInputs_parts hp).2.2.2.2.2.2
      rw [hj] at htop
      simp only at htop
      rw [hbad] at htop
      exact absurd htop (by simp)

/-- A request that is valid except that top_n is the string abc. -/
def cexReq10 : PredictRequest :=
  { user_rank := some (.jint 5), quota := some (.jstr (("q").toList)),
    category := some (.jstr (("c").toList)),
    gender := some (.jstr (("g").toList)),
    round := some (.jstr (("1").toList)),
    top_n := some (.jstr (("abc").toList)) }

/-- Witness for C10: a request whose top_n is the string abc fails. -/
theorem C10_witness : ∃ e, predict [] cexReq10 = .error e :=
  C10_unconvertible_top_n [] cexReq10 (.jstr (("abc").toList)) rfl
    (by decide)

/-! Section: C5 -/

theorem checkRequired_eq_none_iff (req : PredictRequest) :
    checkRequired req = none ↔
      (fieldBlank req.user_rank = false ∧ fieldBlank req.quota = false ∧
       fieldBlank req.category = false ∧ fieldBlank req.gender = false ∧
       fieldBlank req.round = false) := by
  unfold checkRequired
  split_ifs with h1 h2 h3 h4 h5 <;> simp_all

theorem parseInputs_isSome_iff (req : PredictRequest) :
    (∃ t, parseInputs req = some t) ↔
      ((∃ n, req.user_rank.bind pyToInt = some n ∧ 0 < n) ∧
       (req.quota.bind jStrip).isSome = true ∧
       (req.category.bind jStrip).isSome = true ∧
       (req.gender.bind jStrip).isSome = true ∧
       (req.round.bind jStrip).isSome = true ∧
       (match req.top_n with
         | none => some (10 : Int)
         | some v => pyToInt v).isSome = true) := by
  constructor
  · rintro ⟨⟨ur, q, c, g, rn, tn⟩, hp⟩
    obtain ⟨h1, hpos, h3, h4, h5, h6, h7⟩ := parseInputs_parts hp
    exact ⟨⟨ur, h1, hpos⟩, by rw [h3]; rfl, by rw [h4]; rfl,
      by rw [h5]; rfl, by rw [h6]; rfl, by rw [h7]; rfl⟩
  · rintro ⟨⟨n, h1, hn⟩, h2, h3, h4, h5, h6⟩
    obtain ⟨q, hq⟩ := Option.isSome_iff_exists.mp h2
    obtain ⟨c, hc⟩ := Option.isSome_iff_exists.mp h3
    obtain ⟨g, hg⟩ := Option.isSome_iff_exists.mp h4
    obtain ⟨rn, hrn⟩ := Option.isSome_iff_exists.mp h5
    obtain ⟨tn, htn⟩ := Option.isSome_iff_exists.mp h6
    refine ⟨(n, q, c, g, rn, tn), ?_⟩
    unfold parseInputs
    rw [h1]
    simp only [Option.some_bind]
    rw [if_neg (not_le.mpr hn), hq]
    simp only [Option.some_bind]
    rw [hc]
    simp only [Option.some_bind]
    rw [hg]
    simp only [Option.some_bind]
    rw [hrn]
    simp only [Option.some_bind]
    rw [htn]
    simp only [Option.some_bind]

/-- C5 amended: predict rejects a request with an HTTP 400 error, before
any filtering and regardless of the dataset, exactly when boundary
validation fails: a required field is absent or blank, int conversion of
the rank fails or gives a non-positive value, strip() fails on a required
field because it is not a string, or top_n is present and int conversion
fails on it.  (The original claim's iff omitted the last two
possibilities.) -/
theorem C5_amended (df : List Record) (req : PredictRequest) :
    (∃ e, predict df req = .error e) ↔
      ¬ (fieldBlank req.user_rank = false ∧ fieldBlank req.quota = false ∧
         fieldBlank req.category = false ∧ fieldBlank req.gender = false ∧
         fieldBlank req.round = false ∧
         (∃ n, req.user_rank.bind pyToInt = some n ∧ 0 < n) ∧
         (req.quota.bind jStrip).isSome = true ∧
         (req.category.bind jStrip).isSome = true ∧
         (req.gender.bind jStrip).isSome = true ∧
         (req.round.bind jStrip).isSome = true ∧
         (match req.top_n with
           | none => some (10 : Int)
           | some v => pyToInt v).isSome = true) := by
  constructor
  · rintro ⟨e, he⟩ hall
    obtain ⟨hb1, hb2, hb3, hb4, hb5, hr1, hr2, hr3, hr4, hr5, hr6⟩ := hall
    have hc : checkRequired req = none :=
      (checkRequired_eq_none_iff req).2 ⟨hb1, hb2, hb3, hb4, hb5⟩
    obtain ⟨⟨ur, q, c, g, rn, tn⟩, hp⟩ :=
      (parseInputs_isSome_iff req).2 ⟨hr1, hr2, hr3, hr4, hr5, hr6⟩
    unfold predict at he
    rw [hc, hp] at he
    simp only at he
    split_ifs at he <;> simp at he
  · intro hnot
    cases hc : checkRequired req with
    | some f =>
      refine ⟨.missingField f, ?_⟩
      unfold predict
      rw [hc]
    | none =>
      cases hp : parseInputs req with
      | none =>
        refine ⟨.invalidInput, ?_⟩
        unfold predict
        rw [hc, hp]
      | some t =>
        exfalso
        apply hnot
        have hcs := (checkRequired_eq_none_iff req).1 hc
        have hps := (parseInputs_isSome_iff req).1 ⟨t, hp⟩
        exact ⟨hcs.1, hcs.2.1, hcs.2.2.1, hcs.2.2.2.1, hcs.2.2.2.2,
          hps.1, hps.2.1, hps.2.2.1, hps.2.2.2.1, hps.2.2.2.2.1,
          hps.2.2.2.2.2⟩

/-- Counterexample to C5: a request whose rank is the positive integer 5
and whose required fields are all present, non-blank strings still fails,
because its top_n is the unconvertible string abc; the claimed iff names
no such failure condition. -/
theorem C5_counterexample :
    fieldBlank cexReq10.user_rank = false ∧
    fieldBlank cexReq10.quota = false ∧
    fieldBlank cexReq10.category = false ∧
    fieldBlank cexReq10.gender = false ∧
    fieldBlank cexReq10.round = false ∧
    cexReq10.user_rank.bind pyToInt = some 5 ∧
    (cexReq10.quota.bind jStrip).isSome = true ∧
    (cexReq10.category.bind jStrip).isSome = true ∧
    (cexReq10.gender.bind jStrip).isSome = true ∧
    (cexReq10.round.bind jStrip).isSome = true ∧
    predict [] cexReq10 = .error .invalidInput := by
  decide

/-! Section: C9 -/

theorem tails_map {α β : Type} (f : α → β) (l : List α) :
    (l.map f).tails = l.tails.map (List.map f) := by
  induction l with
  | nil => simp
  | cons a as ih => simp [ih]

theorem any_congr {α : Type} {l : List α} {p q : α → Bool}
    (h : ∀ a ∈ l, p a = q a) : l.any p = l.any q := by
  induction l with
  | nil => rfl
  | cons a as ih => simp_all

theorem reMatchAt_eq_isPrefixOf {pat : Str} (hdot : ('.') ∉ pat) (t : Str) :
    reMatchAt pat t =
      (pat.map Char.toLower).isPrefixOf (t.map Char.toLower) := by
  induction pat generalizing t with
  | nil => simp [reMatchAt, List.isPrefixOf]
  | cons p ps ih =>
    have hp : p ≠ ('.') := fun h => hdot (h ▸ List.mem_cons_self p ps)
    have hps : ('.') ∉ ps := fun h => hdot (List.mem_cons_of_mem _ h)
    cases t with
    | nil => simp [reMatchAt, List.isPrefixOf]
    | cons c cs =>
      simp only [reMatchAt, List.map_cons, List.isPrefixOf, charMatches]
      rw [ih hps]
      have hpd : (p == ('.')) = false := by simp [hp]
      rw [hpd]
      simp

theorem reSearch_eq_specContainsCI {pat : Str} (hdot : ('.') ∉ pat)
    (s : Str) : reSearch pat s = specContainsCI pat s := by
  unfold reSearch specContainsCI
  rw [tails_map, List.any_map]
  exact any_congr fun t _ => by
    simpa [Function.comp] using reMatchAt_eq_isPrefixOf hdot t

/-- A row whose institute ABC is regex-matched, but not substring-matched,
by the pattern a dot c; its closing rank is absent. -/
def cexRec9 : Record :=
  { institute := ("ABC").toList, program := ("P").toList,
    quota := ("q").toList, category := ("c").toList,
    seatGender := ("g").toList, round := ("1").toList,
    openingRank := some 1, closingRank := none }

/-- Counterexample to C9: the pattern a dot c is not a case-insensitive
substring of the institute ABC, yet college-info returns that record,
because pandas str.contains treats the pattern as a regular expression in
which the dot matches any character. -/
theorem C9_counterexample :
    college_info [cexRec9] (("a.c").toList) [] =
      .ok 1 [mkInfoRecord cexRec9] (.found 1) ∧
    specContainsCI (("a.c").toList) cexRec9.institute = false := by
  decide

/-- With no metacharacter at all in the pattern, in particular no dot,
regex search is exactly case-insensitive substring containment. -/
theorem literalPattern_reSearch {pat : Str}
    (hlit : literalPattern pat = true) (s : Str) :
    reSearch pat s = specContainsCI pat s := by
  refine reSearch_eq_specContainsCI (fun hmem => ?_) s
  have hc := List.all_eq_true.mp hlit _ hmem
  rw [show pyRegexMeta.contains ('.') = true from by decide] at hc
  exact absurd hc (by decide)

/-- C9 amended: restricted to name and program patterns in the modelled
regex domain (simple patterns, whose only metacharacter is the dot, so
that the pattern is a valid regular expression and the handler's HTTP 500
path on re.error cannot trigger): for a non-blank name pattern,
searchInstitutes succeeds and returns exactly the records whose institute
the trimmed name pattern matches as a case-insensitive regular expression
and, when the trimmed program pattern is non-empty, whose program it
matches likewise, both ANDed; for patterns free of every regex
metacharacter the regex match is exactly case-insensitive substring
containment; absent opening or closing ranks surface as the explicit N/A
marker. -/
theorem C9_amended (df : List Record) (nameParam programParam : Str)
    (hn : pyStrip nameParam ≠ [])
    (hsn : simplePattern (pyStrip nameParam) = true)
    (hsp : simplePattern (pyStrip programParam) = true) :
    college_info df nameParam programParam =
      .ok (infoMatches df (pyStrip nameParam) (pyStrip programParam)).length
        (infoMatches df (pyStrip nameParam) (pyStrip programParam))
        (if (infoMatches df (pyStrip nameParam)
              (pyStrip programParam)).isEmpty
          then .noneFound
          else .found (infoMatches df (pyStrip nameParam)
            (pyStrip programParam)).length) ∧
    infoMatches df (pyStrip nameParam) (pyStrip programParam) =
      (df.filter fun r =>
        reSearch (pyStrip nameParam) r.institute &&
          ((pyStrip programParam).isEmpty ||
            reSearch (pyStrip programParam) r.program)).map mkInfoRecord ∧
    (∀ pat s : Str, literalPattern pat = true →
      reSearch pat s = specContainsCI pat s) ∧
    (∀ r : Record, r.openingRank = none →
      (mkInfoRecord r).openingRank = .na) ∧
    (∀ r : Record, r.closingRank = none →
      (mkInfoRecord r).closingRank = .na) := by
  refine ⟨?_, rfl, fun pat s hlit => literalPattern_reSearch hlit s,
    ?_, ?_⟩
  · unfold college_info
    rw [if_neg ?_]
    intro hcon
    exact hn (List.isEmpty_iff.mp hcon)
  · intro r hr
    unfold mkInfoRecord
    rw [hr]
  · intro r hr
    unfold mkInfoRecord
    rw [hr]

/-- A row whose institute is IIT Kanpur, for the spec's case-insensitivity
example. -/
def iitRec : Record :=
  { institute := ("IIT Kanpur").toList, program := ("CSE").toList,
    quota := ("q").toList, category := ("c").toList,
    seatGender := ("g").toList, round := ("1").toList,
    openingRank := some 1, closingRank := some 2 }

/-- Witness for C9 amended: the lookup for the metacharacter-free, hence
simple, pattern iit succeeds on a dataset holding IIT Kanpur. -/
theorem C9_witness :
    college_info [iitRec] (("iit").toList) [] =
      .ok (infoMatches [iitRec] (pyStrip (("iit").toList))
            (pyStrip ([] : Str))).length
        (infoMatches [iitRec] (pyStrip (("iit").toList))
          (pyStrip ([] : Str)))
        (if (infoMatches [iitRec] (pyStrip (("iit").toList))
              (pyStrip ([] : Str))).isEmpty
          then .noneFound
          else .found (infoMatches [iitRec] (pyStrip (("iit").toList))
            (pyStrip ([] : Str))).length) :=
  (C9_amended [iitRec] (("iit").toList) ([] : Str) (by decide)
    (by decide) (by decide)).1
